import Mathlib

/- Shallow embedding of the k8s-landingpage aggregation engine
   (src/collector.rs, src/config.rs, src/errors.rs).

   Network interactions (the home-cluster client, secret reads, kubeconfig
   parsing, client construction, ingress list calls) are modelled by an
   explicit environment `Env` whose fields give the outcome of each kind of
   call, so that one refresh cycle becomes a pure function of the
   configuration and the environment. Rust `Result<T, Error>` becomes
   `Except Error T`; `Option<T>` becomes `Option T`; `BTreeMap<String, _>`
   becomes an association list queried through `List.lookup` (only lookup is
   ever used by the code). -/

namespace Landingpage

/-- Opaque handle for a `kube::Client`. -/
abbrev Client := Nat

/-- Opaque handle for a parsed `Kubeconfig` document. -/
abbrev KubeconfigFile := Nat

/-- Raw bytes of a secret data field (`ByteString`), modelled as a string. -/
abbrev ByteBlob := String

/-- Error enum from src/errors.rs: `Generic(String)`, `Kube(kube::Error)`
(the upstream error is kept as its message), `MissingKubeconfig(String)`. -/
inductive Error where
  | Generic (msg : String)
  | Kube (msg : String)
  | MissingKubeconfig (msg : String)
deriving DecidableEq

/-- Global section of the configuration (src/config.rs `Global`).
The flag field is `only_with_annotation` in the source; shortened here. -/
structure Global where
  only_with_annot : Bool
  refresh_interval_seconds : Option Nat
deriving DecidableEq

/-- Local cluster section of the configuration (src/config.rs `LocalCluster`). -/
structure LocalCluster where
  enabled : Bool
  description : Option String
  namespaces : Option (List String)
deriving DecidableEq

/-- Reference to the secret holding a remote kubeconfig
(src/config.rs `KubeconfigSecret`). -/
structure KubeconfigSecret where
  name : String
  «namespace» : String
deriving DecidableEq

/-- One remote cluster descriptor (src/config.rs `RemoteCluster`). -/
structure RemoteCluster where
  name : String
  description : Option String
  kubeconfig_secret : KubeconfigSecret
  namespaces : Option (List String)
deriving DecidableEq

/-- Newtype group key; `val` stands for the `.0` field the collector reads
(src/collector.rs line 125 uses `group_name.0`). -/
structure GroupName where
  val : String
deriving DecidableEq

/-- Top-level configuration. The collector iterates `remote` as ordered
pairs of group key and cluster list (src/collector.rs line 116), matching
the spec shape `map<groupName, list<RemoteCluster>>`; it is modelled as an
ordered association list to preserve configuration order. -/
structure Config where
  «global» : Option Global
  «local» : Option LocalCluster
  remote : Option (List (GroupName × List RemoteCluster))

/-- One path entry of an ingress rule (k8s `HTTPIngressPath`; only the
`path` field is read). -/
structure HTTPIngressPath where
  path : Option String
deriving DecidableEq

/-- HTTP block of an ingress rule (k8s `HTTPIngressRuleValue`); its Rust
`Default` is an empty `paths` vector. -/
structure HTTPIngressRuleValue where
  paths : List HTTPIngressPath
deriving DecidableEq

/-- One rule of an ingress spec (k8s `IngressRule`; fields `host`, `http`). -/
structure IngressRule where
  host : Option String
  http : Option HTTPIngressRuleValue
deriving DecidableEq

/-- Routing spec of an ingress object (k8s `IngressSpec`; renamed to avoid
clashing with the collector-local record type below). -/
structure K8sIngressSpec where
  rules : Option (List IngressRule)
deriving DecidableEq

/-- Object metadata as read by the collector: name, namespace, and the two
string maps. -/
structure ObjectMeta where
  name : Option String
  «namespace» : Option String
  annotations : Option (List (String × String))
  labels : Option (List (String × String))
deriving DecidableEq

/-- One listed ingress object. -/
structure Ingress where
  metadata : ObjectMeta
  spec : Option K8sIngressSpec
deriving DecidableEq

/-- A secret object; `data` maps field names to byte blobs. -/
structure Secret where
  data : Option (List (String × ByteBlob))
deriving DecidableEq

/-- A `kube::Config` built from a kubeconfig, with the mutable
`accept_invalid_certs` flag the collector sets to true. -/
structure KubeClientConfig where
  source : KubeconfigFile
  accept_invalid_certs : Bool
deriving DecidableEq

/-- Environment: outcome of every kind of network call the collector makes.
`tryDefault` is `kube::Client::try_default`; `getSecret` takes the secret
namespace and name (read with the home client); `parseKubeconfig` is
`serde_yaml::from_slice`; `fromCustomKubeconfig` is
`kube::Config::from_custom_kubeconfig`; `tryIntoClient` is the
`config.try_into()` client construction; `listIngresses` is the ingress
list call of a client, cluster-wide when the namespace is `none`.
Error payloads are the upstream error messages. -/
structure Env where
  tryDefault : Except String Client
  getSecret : String → String → Except String Secret
  parseKubeconfig : ByteBlob → Except String KubeconfigFile
  fromCustomKubeconfig : KubeconfigFile → Except String KubeClientConfig
  tryIntoClient : KubeClientConfig → Except String Client
  listIngresses : Client → Option String → Except String (List Ingress)

/-- Annotation key `landingpage.info/name` (NAME constant in collector.rs). -/
def NAME_KEY : String := "landingpage.info/name"

/-- Annotation key `landingpage.info/description` (DESCRIPTION constant in
collector.rs). -/
def DESCRIPTION_KEY : String := "landingpage.info/description"

/-- Intermediate record for one discovered route (collector.rs
`IngressSpec`, the RouteRecord of the spec). -/
structure IngressSpec where
  name : String
  «namespace» : String
  host : String
  tls_used : Bool
  path : Option String
  annotations : List (String × String)
  labels : List (String × String)
deriving DecidableEq

/-- Display entry for one route (collector.rs `IngressInfo`, the RouteEntry
of the spec). -/
structure IngressInfo where
  name : String
  description : String
  url : String
deriving DecidableEq

/-- Display entry for one cluster (collector.rs `ClusterInfo`). -/
structure ClusterInfo where
  name : String
  description : String
  ingresses : List IngressInfo
deriving DecidableEq

/-- Display entry for one group (collector.rs `GroupInfo`). -/
structure GroupInfo where
  name : String
  clusters : List ClusterInfo
deriving DecidableEq

/-- `ResourceExt::name_any`: the metadata name, or empty when absent. -/
def name_any (i : Ingress) : String :=
  i.metadata.name.getD ""

/-- The annotation filter of `collect_ingresses` (collector.rs lines
234 to 246): when the flag is set, an object is kept only when its
annotations exist and at least one of the two recognized keys is present;
without the flag every object is kept. -/
def keptByGate (owa : Bool) (i : Ingress) : Bool :=
  if owa then
    match i.metadata.annotations with
    | some anns => !((anns.lookup NAME_KEY).isNone && (anns.lookup DESCRIPTION_KEY).isNone)
    | none => false
  else
    true

/-- Paths under the HTTP block of a rule: `rule.http.unwrap_or_default().paths`. -/
def pathsOfRule (rule : IngressRule) : List HTTPIngressPath :=
  (rule.http.getD { paths := [] }).paths

/-- Records emitted for one rule of one object (inner loop of
`collect_ingresses`, collector.rs lines 250 to 269): nothing without a
host, else one record per path entry. -/
def recordsOfRule (i : Ingress) (rule : IngressRule) : List IngressSpec :=
  match rule.host with
  | none => []
  | some host =>
    (pathsOfRule rule).map (fun p =>
      { name := name_any i
        «namespace» := i.metadata.«namespace».getD "default"
        host := host
        tls_used := true
        path := p.path
        annotations := i.metadata.annotations.getD []
        labels := i.metadata.labels.getD [] })

/-- Records emitted for one listed object (loop body of
`collect_ingresses`): the annotation gate, then skip without a spec, then
the rule and path fan-out. -/
def recordsOfIngress (owa : Bool) (i : Ingress) : List IngressSpec :=
  if keptByGate owa i then
    match i.spec with
    | none => []
    | some spec => (spec.rules.getD []).flatMap (recordsOfRule i)
  else
    []

/-- The effective value of the filter flag:
`config.global.as_ref().map(..).unwrap_or_default()`. -/
def only_with_annot_of (cfg : Config) : Bool :=
  (cfg.«global».map (fun g => g.only_with_annot)).getD false

/-- The scan of one scope (collector.rs `collect_ingresses`): one list
call, then per-object emission; a list failure is returned as a wrapped
upstream error (`Error::Kube` via the `?` conversion). -/
def collect_ingresses (cfg : Config) (env : Env) (client : Client)
    (ns : Option String) : Except Error (List IngressSpec) :=
  match env.listIngresses client ns with
  | .error e => .error (.Kube e)
  | .ok object_list => .ok (object_list.flatMap (recordsOfIngress (only_with_annot_of cfg)))

/-- Mapping of raw records to display entries for one cluster
(collector.rs `transform_to_info`). -/
def transform_to_info (cluster_name : String) (description : Option String)
    (input : List IngressSpec) : ClusterInfo :=
  { name := cluster_name
    description := description.getD ""
    ingresses := input.map (fun i =>
      { name := (i.annotations.lookup NAME_KEY).getD i.name
        description := (i.annotations.lookup DESCRIPTION_KEY).getD ""
        url := "https://" ++ i.host ++ (i.path.getD "/") }) }

/-- Credential resolution for a remote cluster (collector.rs `kubeconfig`):
read the secret, take its `value` field, parse it as a kubeconfig, build a
client config (force-accepting invalid certificates), construct the client.
Every failure before the final construction is `Error::MissingKubeconfig`;
the final `try_into` failure is converted to `Error::Kube` by `?`. -/
def kubeconfig (env : Env) (remote : RemoteCluster) (_client : Client) :
    Except Error Client :=
  let error_name := remote.kubeconfig_secret.«namespace» ++ "/" ++ remote.kubeconfig_secret.name
  match env.getSecret remote.kubeconfig_secret.«namespace» remote.kubeconfig_secret.name with
  | .error err =>
    .error (.MissingKubeconfig ("Could not get kubeconfig secret " ++ error_name ++ ": " ++ err))
  | .ok secret =>
    match secret.data with
    | none =>
      .error (.MissingKubeconfig ("Could not get kubeconfig secret " ++ error_name ++ ": No data"))
    | some data =>
      match data.lookup "value" with
      | none =>
        .error (.MissingKubeconfig
          ("Could not get kubeconfig secret " ++ error_name ++ ": No data field kubeconfig"))
      | some blob =>
        match env.parseKubeconfig blob with
        | .error err => .error (.MissingKubeconfig err)
        | .ok kc =>
          match env.fromCustomKubeconfig kc with
          | .error err => .error (.MissingKubeconfig err)
          | .ok cfg0 =>
            match env.tryIntoClient { cfg0 with accept_invalid_certs := true } with
            | .error err => .error (.Kube err)
            | .ok c => .ok c

/-- Aggregation of one remote cluster (collector.rs `collect_from_remote`):
client resolution failure yields `none`; with an explicit namespace list,
per-namespace scan failures are logged and skipped and an entry is always
produced from the successful scans; without a namespace list, a failing
cluster-wide scan yields `none`. -/
def collect_from_remote (cfg : Config) (env : Env) (remote : RemoteCluster)
    (client : Client) : Option ClusterInfo :=
  match kubeconfig env remote client with
  | .error _ => none
  | .ok remote_client =>
    match remote.namespaces with
    | some namespaces =>
      some (transform_to_info remote.name remote.description
        (namespaces.flatMap (fun ns =>
          match collect_ingresses cfg env remote_client (some ns) with
          | .ok specs => specs
          | .error _ => [])))
    | none =>
      match collect_ingresses cfg env remote_client none with
      | .ok specs => some (transform_to_info remote.name remote.description specs)
      | .error _ => none

/-- The local namespace loop of `collect_for_all_clusters` (collector.rs
lines 95 to 99): scans run in list order and the first failure is
propagated by `?`. -/
def collect_namespaces_strict (cfg : Config) (env : Env) (client : Client) :
    List String → Except Error (List IngressSpec)
  | [] => .ok []
  | ns :: rest =>
    match collect_ingresses cfg env client (some ns) with
    | .error e => .error e
    | .ok specs =>
      match collect_namespaces_strict cfg env client rest with
      | .error e => .error e
      | .ok more => .ok (specs ++ more)

/-- Aggregation of the local cluster (collector.rs lines 94 to 107):
namespace-list scans with propagated failure, or one cluster-wide scan. -/
def collect_local (cfg : Config) (env : Env) (client : Client)
    (l : LocalCluster) : Except Error ClusterInfo :=
  match l.namespaces with
  | some namespaces =>
    match collect_namespaces_strict cfg env client namespaces with
    | .error e => .error e
    | .ok collected => .ok (transform_to_info "local" l.description collected)
  | none =>
    match collect_ingresses cfg env client none with
    | .error e => .error e
    | .ok specs => .ok (transform_to_info "local" l.description specs)

/-- The local part of the snapshot (collector.rs lines 91 to 112): one
group named local holding exactly the local entry when the local cluster is
configured and enabled, empty otherwise; local failure propagates. -/
def local_groups (cfg : Config) (env : Env) (client : Client) :
    Except Error (List GroupInfo) :=
  match cfg.«local» with
  | some l =>
    if l.enabled then
      match collect_local cfg env client l with
      | .error e => .error e
      | .ok ci => .ok [{ name := "local", clusters := [ci] }]
    else .ok []
  | none => .ok []

/-- The remote part of the snapshot (collector.rs lines 115 to 129): one
group per configured pair in order, keeping only the clusters whose
aggregation returned an entry. -/
def remote_groups (cfg : Config) (env : Env) (client : Client) : List GroupInfo :=
  (cfg.remote.getD []).map (fun gc =>
    { name := gc.1.val
      clusters := gc.2.filterMap (fun rc => collect_from_remote cfg env rc client) })

/-- One full collection cycle (collector.rs `collect_for_all_clusters`). -/
def collect_for_all_clusters (env : Env) (cfg : Config) :
    Except Error (List GroupInfo) :=
  match env.tryDefault with
  | .error e => .error (.Kube e)
  | .ok client =>
    match local_groups cfg env client with
    | .error e => .error e
    | .ok lg => .ok (lg ++ remote_groups cfg env client)

/-- One tick of the refresh loop (collector.rs `run_collector_task` lines
71 to 83): a successful collection replaces the published snapshot, a
failure leaves it unchanged and the loop continues. -/
def refresh_step (env : Env) (cfg : Config) (snapshot : List GroupInfo) :
    List GroupInfo :=
  match collect_for_all_clusters env cfg with
  | .ok result => result
  | .error _ => snapshot

/-- Fan-out count as the spec words it (refinement target): the sum, over
the rules of the object that have a host, of the number of path entries
under that rule's HTTP block; zero without a routing spec. -/
def specFanoutCount (i : Ingress) : Nat :=
  match i.spec with
  | none => 0
  | some s =>
    ((s.rules.getD []).map (fun rule =>
      match rule.host with
      | none => 0
      | some _ => (pathsOfRule rule).length)).sum

/-- Whether the object carries a given annotation key (spec wording for the
filter contract). -/
def carries_key (i : Ingress) (k : String) : Bool :=
  match i.metadata.annotations with
  | some anns => (anns.lookup k).isSome
  | none => false

/-- A rule with host example.com and one path entry for /app. -/
def rule1 : IngressRule :=
  { host := some "example.com", http := some { paths := [{ path := some "/app" }] } }

/-- An object carrying both recognized annotations and one rule. -/
def ing1 : Ingress :=
  { metadata :=
      { name := some "obj1"
        «namespace» := some "ns1"
        annotations := some [(NAME_KEY, "A"), (DESCRIPTION_KEY, "B")]
        labels := none }
    spec := some { rules := some [rule1] } }

/-- An object without any annotations but with a valid rule, host and path. -/
def ingNoAnn : Ingress :=
  { metadata := { name := some "plain", «namespace» := none, annotations := none, labels := none }
    spec := some { rules := some [rule1] } }

/-- An environment where every call succeeds and every scan lists ing1. -/
def env0 : Env :=
  { tryDefault := .ok 0
    getSecret := fun _ _ => .ok { data := some [("value", "kc")] }
    parseKubeconfig := fun _ => .ok 0
    fromCustomKubeconfig := fun _ => .ok { source := 0, accept_invalid_certs := false }
    tryIntoClient := fun _ => .ok 1
    listIngresses := fun _ _ => .ok [ing1] }

/-- Like env0 but the list call for namespace bad fails. -/
def envScanFail : Env :=
  { env0 with listIngresses := fun _ ns => if ns = some "bad" then .error "boom" else .ok [ing1] }

/-- Like env0 but the credential secret is absent. -/
def envSecretAbsent : Env :=
  { env0 with getSecret := fun _ _ => .error "boom" }

/-- Like env0 but the credential secret lacks the value field. -/
def envNoValue : Env :=
  { env0 with getSecret := fun _ _ => .ok { data := some [("other", "x")] } }

/-- Like env0 but the credential blob does not parse as a kubeconfig. -/
def envParseFail : Env :=
  { env0 with parseKubeconfig := fun _ => .error "invalid yaml" }

/-- Like env0 but the secret named badsec holds an unparsable blob. -/
def envCred : Env :=
  { env0 with
    getSecret := fun _ n =>
      if n = "badsec" then .ok { data := some [("value", "badkc")] }
      else .ok { data := some [("value", "kc")] }
    parseKubeconfig := fun b => if b = "kc" then .ok 0 else .error "invalid kubeconfig"
    listIngresses := fun _ _ => .ok [ing1] }

/-- Like env0 but every scan lists only the annotation-free object. -/
def envListPlain : Env :=
  { env0 with listIngresses := fun _ _ => .ok [ingNoAnn] }

/-- Secret reference ns/sec. -/
def sec0 : KubeconfigSecret := { name := "sec", «namespace» := "ns" }

/-- Remote cluster scanning only the namespace bad. -/
def remBad : RemoteCluster :=
  { name := "rbad", description := none, kubeconfig_secret := sec0, namespaces := some ["bad"] }

/-- Remote cluster scanning the namespaces bad then good. -/
def remBadGood : RemoteCluster :=
  { name := "rr", description := some "d", kubeconfig_secret := sec0,
    namespaces := some ["bad", "good"] }

/-- Remote cluster with no namespace list. -/
def remNone : RemoteCluster :=
  { name := "c1", description := none, kubeconfig_secret := sec0, namespaces := none }

/-- Remote cluster whose credential secret badsec holds an unparsable blob. -/
def remCredBad : RemoteCluster :=
  { name := "c2", description := none,
    kubeconfig_secret := { name := "badsec", «namespace» := "ns" }, namespaces := none }

/-- Config with one remote group g holding the cluster remBad. -/
def cfgC1 : Config :=
  { «global» := none, «local» := none, remote := some [(⟨"g"⟩, [remBad])] }

/-- The enabled local cluster scanning only the namespace bad. -/
def localBad : LocalCluster :=
  { enabled := true, description := none, namespaces := some ["bad"] }

/-- Config with only the local cluster, scanning the namespace bad. -/
def cfgL : Config :=
  { «global» := none, «local» := some localBad, remote := none }

/-- Config with one group g holding a healthy cluster then one with a bad
credential bundle (the failure-isolation example of the spec). -/
def cfg2 : Config :=
  { «global» := none, «local» := none, remote := some [(⟨"g"⟩, [remNone, remCredBad])] }

/-- Config with the annotation filter flag set. -/
def cfgOwa : Config :=
  { «global» := some { only_with_annot := true, refresh_interval_seconds := none }
    «local» := none, remote := none }

/-- The enabled local cluster with no namespace list. -/
def localHome : LocalCluster :=
  { enabled := true, description := some "home", namespaces := none }

/-- Config with the local cluster enabled and one remote group g whose only
cluster has an unreachable credential secret. -/
def cfg7 : Config :=
  { «global» := none, «local» := some localHome, remote := some [(⟨"g"⟩, [remNone])] }

/-- The display entry derived from ing1. -/
def entryAB : IngressInfo :=
  { name := "A", description := "B", url := "https://example.com/app" }

/-- The entry produced for the healthy cluster c1 under envCred. -/
def clusterC1 : ClusterInfo :=
  { name := "c1", description := "", ingresses := [entryAB] }

/-- The local entry produced for localHome under envSecretAbsent. -/
def ciLocal : ClusterInfo :=
  { name := "local", description := "home",
    ingresses := [{ name := "A", description := "B", url := "https://example.com/app" }] }

/-- A record carrying both override annotations and its own name. -/
def specAB : IngressSpec :=
  { name := "own", «namespace» := "n", host := "example.com", tls_used := true,
    path := some "/app", annotations := [(NAME_KEY, "A"), (DESCRIPTION_KEY, "B")],
    labels := [] }

/-- A record with no annotations and no path. -/
def specNoPath : IngressSpec :=
  { name := "p", «namespace» := "n", host := "example.com", tls_used := true,
    path := none, annotations := [], labels := [] }

deriving instance DecidableEq for Except

/-- A strict namespace loop fails whenever the scan of one of the listed
namespaces fails (the loop propagates the first error it meets). -/
theorem collect_namespaces_strict_fail (cfg : Config) (env : Env) (client : Client)
    {nss : List String} {ns : String} (hm : ns ∈ nss)
    (hf : (collect_ingresses cfg env client (some ns)).isOk = false) :
    (collect_namespaces_strict cfg env client nss).isOk = false := by
  induction nss with
  | nil => cases hm
  | cons a t ih =>
    simp only [collect_namespaces_strict]
    cases h : collect_ingresses cfg env client (some a) with
    | error e => simp [Except.isOk, Except.toBool]
    | ok specs =>
      cases hm with
      | head => rw [h] at hf; simp [Except.isOk, Except.toBool] at hf
      | tail _ hm2 =>
        have ht := ih hm2
        cases h2 : collect_namespaces_strict cfg env client t with
        | error e => simp [Except.isOk, Except.toBool]
        | ok more => rw [h2] at ht; simp [Except.isOk, Except.toBool] at ht

/-- Claim C1, counterexample: a remote cluster listing the namespace bad,
whose scan of bad fails, still yields a ClusterEntry (with the records of
the other namespaces, here none), so the failure is not propagated and the
whole-cluster aggregation does not fail as the claim states for remote
descriptors. -/
theorem C1_remote_not_propagated :
    (collect_ingresses cfgC1 envScanFail 1 (some "bad")).isOk = false ∧
    collect_from_remote cfgC1 envScanFail remBad 0 =
      some { name := "rbad", description := "", ingresses := [] } := by
  exact ⟨by decide, by decide⟩

/-- Claim C1, amended: only for the LOCAL cluster with explicit namespaces
does a failing per-namespace scan abort the whole collection cycle (the
error propagates out of collect_for_all_clusters); remote clusters skip
failing namespaces instead. -/
theorem C1_local_namespace_failure_propagates (env : Env) (cfg : Config)
    (client : Client) (l : LocalCluster) (nss : List String) (ns : String)
    (hc : env.tryDefault = .ok client)
    (hl : cfg.«local» = some l)
    (he : l.enabled = true)
    (hn : l.namespaces = some nss)
    (hm : ns ∈ nss)
    (hf : (collect_ingresses cfg env client (some ns)).isOk = false) :
    (collect_for_all_clusters env cfg).isOk = false := by
  have hs := collect_namespaces_strict_fail cfg env client hm hf
  cases h2 : collect_namespaces_strict cfg env client nss with
  | ok more => rw [h2] at hs; simp [Except.isOk, Except.toBool] at hs
  | error e =>
    have hcl : collect_local cfg env client l = .error e := by
      simp [collect_local, hn, h2]
    simp [collect_for_all_clusters, hc, local_groups, hl, he, hcl,
      Except.isOk, Except.toBool]

/-- Claim C1, witness: a concrete configuration whose local cluster lists
only the namespace bad fails the whole cycle when that scan fails. -/
theorem C1_witness : (collect_for_all_clusters envScanFail cfgL).isOk = false :=
  C1_local_namespace_failure_propagates envScanFail cfgL 0 localBad ["bad"] "bad"
    rfl rfl rfl rfl (by decide) (by decide)

/-- Claim C2, counterexample: a remote cluster with an explicit namespace
list whose only scan fails is NOT omitted from its group; the group holds
its (empty) entry, so not every remote aggregation failure omits the
cluster. -/
theorem C2_scan_failure_not_omitted :
    (collect_ingresses cfgC1 envScanFail 1 (some "bad")).isOk = false ∧
    collect_for_all_clusters envScanFail cfgC1 =
      .ok [{ name := "g",
             clusters := [{ name := "rbad", description := "", ingresses := [] }] }] := by
  exact ⟨by decide, by decide⟩

/-- Claim C2, amended: a credential or client-construction failure omits
the remote cluster from its group, as does a failing cluster-wide scan when
no namespaces are listed; the group itself always appears for every
configured pair, and remote failures never make collect_for_all_clusters
fail (its outcome only depends on the home client and the local part). -/
theorem C2_remote_failures_isolated (cfg : Config) (env : Env)
    (client : Client) (r : RemoteCluster) :
    ((kubeconfig env r client).isOk = false →
      collect_from_remote cfg env r client = none) ∧
    (r.namespaces = none → ∀ c, kubeconfig env r client = .ok c →
      (collect_ingresses cfg env c none).isOk = false →
      collect_from_remote cfg env r client = none) ∧
    (∀ gn cs, (gn, cs) ∈ cfg.remote.getD [] →
      GroupInfo.mk gn.val (cs.filterMap (fun rc => collect_from_remote cfg env rc client))
        ∈ remote_groups cfg env client) ∧
    (∀ lg, env.tryDefault = .ok client → local_groups cfg env client = .ok lg →
      collect_for_all_clusters env cfg = .ok (lg ++ remote_groups cfg env client)) := by
  refine ⟨?_, ?_, ?_, ?_⟩
  · intro hko
    cases h : kubeconfig env r client with
    | error e => simp [collect_from_remote, h]
    | ok c => rw [h] at hko; simp [Except.isOk, Except.toBool] at hko
  · intro hn c hk hs
    cases h2 : collect_ingresses cfg env c none with
    | error e => simp [collect_from_remote, hk, hn, h2]
    | ok specs => rw [h2] at hs; simp [Except.isOk, Except.toBool] at hs
  · intro gn cs hmem
    exact List.mem_map.mpr ⟨(gn, cs), hmem, rfl⟩
  · intro lg hc hlg
    simp [collect_for_all_clusters, hc, hlg]

/-- Claim C2, witness: the failure-isolation example of the spec, one group
with a healthy cluster then one whose credential blob is unparsable; the
bad cluster is omitted, the cycle succeeds, and the group holds exactly one
entry. -/
theorem C2_witness :
    collect_from_remote cfg2 envCred remCredBad 0 = none ∧
    collect_for_all_clusters envCred cfg2 = .ok ([] ++ remote_groups cfg2 envCred 0) ∧
    remote_groups cfg2 envCred 0 = [{ name := "g", clusters := [clusterC1] }] := by
  refine ⟨(C2_remote_failures_isolated cfg2 envCred 0 remCredBad).1 (by decide),
    (C2_remote_failures_isolated cfg2 envCred 0 remCredBad).2.2.2 [] rfl (by decide),
    by decide⟩

/-- Claim C3: once the remote client resolves, a cluster with an explicit
namespace list always yields an entry whose routes are the concatenation,
in list order, of the records of the successful namespace scans (failing
scans contribute nothing); by contrast a cluster with no namespace list is
omitted when its single cluster-wide scan fails. -/
theorem C3_remote_partial_namespaces (cfg : Config) (env : Env)
    (r : RemoteCluster) (client c : Client)
    (hk : kubeconfig env r client = .ok c) :
    (∀ nss, r.namespaces = some nss →
      collect_from_remote cfg env r client =
        some (transform_to_info r.name r.description
          ((nss.map (fun ns =>
            match collect_ingresses cfg env c (some ns) with
            | .ok specs => specs
            | .error _ => [])).flatten))) ∧
    (r.namespaces = none → (collect_ingresses cfg env c none).isOk = false →
      collect_from_remote cfg env r client = none) := by
  constructor
  · intro nss hn
    have hflat : (nss.flatMap (fun ns =>
        match collect_ingresses cfg env c (some ns) with
        | .ok specs => specs
        | .error _ => [])) =
        ((nss.map (fun ns =>
          match collect_ingresses cfg env c (some ns) with
          | .ok specs => specs
          | .error _ => [])).flatten) := rfl
    simp [collect_from_remote, hk, hn, hflat]
  · intro hn hs
    cases h2 : collect_ingresses cfg env c none with
    | error e => simp [collect_from_remote, hk, hn, h2]
    | ok specs => rw [h2] at hs; simp [Except.isOk, Except.toBool] at hs

/-- Claim C3, witness: the cluster remBadGood lists bad then good; the scan
of bad fails, yet an entry appears holding exactly the records of good. -/
theorem C3_witness :
    collect_from_remote cfgC1 envScanFail remBadGood 0 =
      some (transform_to_info remBadGood.name remBadGood.description
        ((["bad", "good"].map (fun ns =>
          match collect_ingresses cfgC1 envScanFail 1 (some ns) with
          | .ok specs => specs
          | .error _ => [])).flatten)) :=
  (C3_remote_partial_namespaces cfgC1 envScanFail remBadGood 0 1 (by decide)).1
    ["bad", "good"] rfl

/-- Claim C4, counterexample: the error enum of errors.rs has no
CredentialNotFound or CredentialMalformed variants; both the absent-secret
case and the missing-value-field case return the SAME constructor
MissingKubeconfig, so the two failure kinds are not distinguishable as
distinct errors. -/
theorem C4_same_variant_for_both_kinds :
    kubeconfig envSecretAbsent remNone 0 =
      .error (.MissingKubeconfig "Could not get kubeconfig secret ns/sec: boom") ∧
    kubeconfig envNoValue remNone 0 =
      .error (.MissingKubeconfig
        "Could not get kubeconfig secret ns/sec: No data field kubeconfig") := by
  exact ⟨by decide, by decide⟩

/-- Claim C4, amended: credential resolution returns the single variant
MissingKubeconfig for all five early failure cases (secret absent, secret
without data, data lacking the value field, kubeconfig parse failure,
client-config construction failure), distinguishable only through the
embedded message; the final client instantiation failure is wrapped as the
Kube variant. -/
theorem C4_credential_error_variants (env : Env) (r : RemoteCluster) (client : Client) :
    (∀ e, env.getSecret r.kubeconfig_secret.«namespace» r.kubeconfig_secret.name = .error e →
      kubeconfig env r client = .error (.MissingKubeconfig
        ("Could not get kubeconfig secret " ++ r.kubeconfig_secret.«namespace» ++ "/" ++
          r.kubeconfig_secret.name ++ ": " ++ e))) ∧
    (∀ s, env.getSecret r.kubeconfig_secret.«namespace» r.kubeconfig_secret.name = .ok s →
      s.data = none →
      kubeconfig env r client = .error (.MissingKubeconfig
        ("Could not get kubeconfig secret " ++ r.kubeconfig_secret.«namespace» ++ "/" ++
          r.kubeconfig_secret.name ++ ": No data"))) ∧
    (∀ s d, env.getSecret r.kubeconfig_secret.«namespace» r.kubeconfig_secret.name = .ok s →
      s.data = some d → d.lookup "value" = none →
      kubeconfig env r client = .error (.MissingKubeconfig
        ("Could not get kubeconfig secret " ++ r.kubeconfig_secret.«namespace» ++ "/" ++
          r.kubeconfig_secret.name ++ ": No data field kubeconfig"))) ∧
    (∀ s d b e, env.getSecret r.kubeconfig_secret.«namespace» r.kubeconfig_secret.name = .ok s →
      s.data = some d → d.lookup "value" = some b → env.parseKubeconfig b = .error e →
      kubeconfig env r client = .error (.MissingKubeconfig e)) ∧
    (∀ s d b kc e, env.getSecret r.kubeconfig_secret.«namespace» r.kubeconfig_secret.name = .ok s →
      s.data = some d → d.lookup "value" = some b → env.parseKubeconfig b = .ok kc →
      env.fromCustomKubeconfig kc = .error e →
      kubeconfig env r client = .error (.MissingKubeconfig e)) ∧
    (∀ s d b kc cc e, env.getSecret r.kubeconfig_secret.«namespace» r.kubeconfig_secret.name = .ok s →
      s.data = some d → d.lookup "value" = some b → env.parseKubeconfig b = .ok kc →
      env.fromCustomKubeconfig kc = .ok cc →
      env.tryIntoClient { cc with accept_invalid_certs := true } = .error e →
      kubeconfig env r client = .error (.Kube e)) := by
  refine ⟨?_, ?_, ?_, ?_, ?_, ?_⟩
  · intro e h; simp [kubeconfig, h, String.append_assoc]
  · intro s h hd; simp [kubeconfig, h, hd, String.append_assoc]
  · intro s d h hd hv; simp [kubeconfig, h, hd, hv, String.append_assoc]
  · intro s d b e h hd hv hp; simp [kubeconfig, h, hd, hv, hp]
  · intro s d b kc e h hd hv hp hf; simp [kubeconfig, h, hd, hv, hp, hf]
  · intro s d b kc cc e h hd hv hp hf ht; simp [kubeconfig, h, hd, hv, hp, hf, ht]

/-- Claim C4, witness: a parse failure of the credential blob yields the
MissingKubeconfig variant carrying the parser message. -/
theorem C4_witness :
    kubeconfig envParseFail remNone 0 = .error (.MissingKubeconfig "invalid yaml") :=
  (C4_credential_error_variants envParseFail remNone 0).2.2.2.1
    { data := some [("value", "kc")] } [("value", "kc")] "kc" "invalid yaml"
    rfl rfl (by decide) rfl

/-- Claim C5: every refresh tick either replaces the published snapshot
with the freshly built collection (on success) or leaves it exactly
unchanged (on failure); the step is total, so a failing refresh is never
fatal. -/
theorem C5_refresh_replace_or_keep (env : Env) (cfg : Config)
    (snapshot : List GroupInfo) :
    (match collect_for_all_clusters env cfg with
     | .ok result => refresh_step env cfg snapshot = result
     | .error _ => refresh_step env cfg snapshot = snapshot) := by
  cases h : collect_for_all_clusters env cfg with
  | ok result => simp [refresh_step, h]
  | error e => simp [refresh_step, h]

/-- Length of the records emitted for one rule: zero without a host, the
path count of the HTTP block otherwise. -/
theorem recordsOfRule_length (i : Ingress) (rule : IngressRule) :
    (recordsOfRule i rule).length =
      (match rule.host with
       | none => 0
       | some _ => (pathsOfRule rule).length) := by
  cases h : rule.host with
  | none => simp [recordsOfRule, h]
  | some host => simp [recordsOfRule, h]

/-- The rule fan-out of one object sums the per-rule counts. -/
theorem flatMap_records_length (i : Ingress) (rules : List IngressRule) :
    (rules.flatMap (recordsOfRule i)).length =
      (rules.map (fun rule =>
        match rule.host with
        | none => 0
        | some _ => (pathsOfRule rule).length)).sum := by
  induction rules with
  | nil => rfl
  | cons a t ih =>
    simp only [List.flatMap_cons, List.length_append, List.map_cons,
      List.sum_cons, recordsOfRule_length, ih]

/-- Claim C6, counterexample: with the filter flag set, a listed object
with no annotations but one rule with a host and one path emits zero
records while its rules-with-host path-count sum is one, so the fan-out
equation does not hold unconditionally for every listed object. -/
theorem C6_filtered_object_breaks_fanout :
    specFanoutCount ingNoAnn = 1 ∧
    recordsOfIngress true ingNoAnn = [] ∧
    collect_ingresses cfgOwa envListPlain 0 none = .ok [] := by
  exact ⟨by decide, by decide, by decide⟩

/-- Claim C6, amended: for every listed object that passes the annotation
gate (hence for every object whenever the flag is unset), the number of
records emitted equals the sum, over the rules that have a host, of the
path count under the rule's HTTP block; objects without a routing spec and
rules without a host contribute zero. -/
theorem C6_fanout_law (owa : Bool) (i : Ingress)
    (hkept : keptByGate owa i = true) :
    (recordsOfIngress owa i).length = specFanoutCount i := by
  unfold recordsOfIngress specFanoutCount
  rw [hkept]
  simp only [if_true]
  cases hs : i.spec with
  | none => rfl
  | some s => simpa using flatMap_records_length i (s.rules.getD [])

/-- Claim C6, witness: the annotated object ing1 passes the gate and its
one rule with one path yields exactly one record. -/
theorem C6_witness :
    (recordsOfIngress true ing1).length = specFanoutCount ing1 :=
  C6_fanout_law true ing1 (by decide)

/-- Claim C7: under a working home client, the snapshot is the local group
(named local, holding exactly the local entry) when the local cluster is
configured and enabled, followed by one group per configured remote pair in
configuration order; without an enabled local cluster the snapshot is the
remote groups alone, and the remote group names always follow the
configured order whatever happened to their clusters. -/
theorem C7_snapshot_shape (env : Env) (cfg : Config) (client : Client)
    (hc : env.tryDefault = .ok client) :
    (∀ l ci, cfg.«local» = some l → l.enabled = true →
      collect_local cfg env client l = .ok ci →
      collect_for_all_clusters env cfg =
        .ok (GroupInfo.mk "local" [ci] :: remote_groups cfg env client)) ∧
    ((∀ l, cfg.«local» = some l → l.enabled = false) →
      collect_for_all_clusters env cfg = .ok (remote_groups cfg env client)) ∧
    (remote_groups cfg env client).map GroupInfo.name =
      (cfg.remote.getD []).map (fun gc => gc.1.val) := by
  refine ⟨?_, ?_, ?_⟩
  · intro l ci hl he hcl
    simp [collect_for_all_clusters, hc, local_groups, hl, he, hcl]
  · intro hdis
    cases h : cfg.«local» with
    | none => simp [collect_for_all_clusters, hc, local_groups, h]
    | some l =>
      have hd := hdis l h
      simp [collect_for_all_clusters, hc, local_groups, h, hd]
  · simp only [remote_groups, List.map_map]
    rfl

/-- Claim C7, witness: local enabled plus one remote group g whose only
cluster fails credential resolution; the snapshot is the local group then
the empty group g, in configuration order. -/
theorem C7_witness :
    collect_for_all_clusters envSecretAbsent cfg7 =
      .ok [GroupInfo.mk "local" [ciLocal], GroupInfo.mk "g" []] := by
  have h := (C7_snapshot_shape envSecretAbsent cfg7 0 rfl).1 localHome ciLocal
    rfl rfl (by decide)
  rw [h]
  decide

/-- Claim C8: with the filter flag set, an object is kept by the annotation
gate exactly when it carries at least one of the two recognized keys; in
particular an object with no annotations at all is always dropped, whatever
its rules, hosts and paths. -/
theorem C8_gate_iff_carries_key (i : Ingress) :
    keptByGate true i = (carries_key i NAME_KEY || carries_key i DESCRIPTION_KEY) ∧
    (i.metadata.annotations = none → keptByGate true i = false) := by
  constructor
  · unfold keptByGate carries_key
    cases h : i.metadata.annotations with
    | none => simp
    | some anns =>
      simp only [if_true]
      cases hn : anns.lookup NAME_KEY with
      | none =>
        cases hd : anns.lookup DESCRIPTION_KEY with
        | none => simp [hn, hd]
        | some v => simp [hn, hd]
      | some v => simp [hn]
  · intro h
    simp [keptByGate, h]

/-- Claim C8, witness: ingNoAnn has valid rules, hosts and paths but no
annotations, and the gate drops it. -/
theorem C8_witness :
    keptByGate true ingNoAnn =
      (carries_key ingNoAnn NAME_KEY || carries_key ingNoAnn DESCRIPTION_KEY) ∧
    keptByGate true ingNoAnn = false :=
  ⟨(C8_gate_iff_carries_key ingNoAnn).1, (C8_gate_iff_carries_key ingNoAnn).2 rfl⟩

/-- Claim C9: the display entry derived from the record at any position
takes its name from the name-override annotation when present (else the
record's own name) and its description from the description-override
annotation when present (else the empty string), the two independently. -/
theorem C9_name_description_overrides (cn : String) (d : Option String)
    (input : List IngressSpec) (k : Nat) (i : IngressSpec)
    (h : input[k]? = some i) :
    ((transform_to_info cn d input).ingresses[k]?.map IngressInfo.name =
      some ((i.annotations.lookup NAME_KEY).getD i.name)) ∧
    ((transform_to_info cn d input).ingresses[k]?.map IngressInfo.description =
      some ((i.annotations.lookup DESCRIPTION_KEY).getD "")) := by
  constructor
  · simp [transform_to_info, List.getElem?_map, h]
  · simp [transform_to_info, List.getElem?_map, h]

/-- Claim C9, witness: a record named own carrying overrides A and B yields
the entry name A and description B. -/
theorem C9_witness :
    ((transform_to_info "c" none [specAB]).ingresses[0]?.map IngressInfo.name =
      some "A") ∧
    ((transform_to_info "c" none [specAB]).ingresses[0]?.map IngressInfo.description =
      some "B") := by
  have h := C9_name_description_overrides "c" none [specAB] 0 specAB rfl
  refine ⟨?_, ?_⟩
  · rw [h.1]; decide
  · rw [h.2]; decide

/-- Claim C10: the display entry derived from the record at any position
has the url https:// followed by the host and then the path, or a single
slash when the record has no path. -/
theorem C10_url_construction (cn : String) (d : Option String)
    (input : List IngressSpec) (k : Nat) (i : IngressSpec)
    (h : input[k]? = some i) :
    (transform_to_info cn d input).ingresses[k]?.map IngressInfo.url =
      some ("https://" ++ i.host ++ (i.path.getD "/")) := by
  simp [transform_to_info, List.getElem?_map, h]

/-- Claim C10, witness: host example.com with path /app yields the url
https://example.com/app, and without a path the url https://example.com/. -/
theorem C10_witness :
    ((transform_to_info "c" none [specAB, specNoPath]).ingresses[0]?.map IngressInfo.url =
      some "https://example.com/app") ∧
    ((transform_to_info "c" none [specAB, specNoPath]).ingresses[1]?.map IngressInfo.url =
      some "https://example.com/") := by
  have h0 := C10_url_construction "c" none [specAB, specNoPath] 0 specAB rfl
  have h1 := C10_url_construction "c" none [specAB, specNoPath] 1 specNoPath rfl
  refine ⟨?_, ?_⟩
  · rw [h0]; decide
  · rw [h1]; decide

end Landingpage
